import Mathlib

/-!
Shallow embedding of the `crownbridge_demo` data-ingestion pipeline
(`financial_data_ingestor.py`, `data_processing_lambda.py`,
`utils/secrets_manager.py`) together with theorems checking the
specification's claims about it.

JSON-derived Python values are modelled by the inductive `JVal`;
Python dicts by association lists (`PyDict`).  Fallible Python code
(code that can raise) is modelled with `Option`/`Except`.  External
collaborators (object storage, the HTTP API, the secret store, the
stdlib JSON parser) are parameters of the embedded functions.
-/

/-- A JSON-derived Python value, as produced by `json.loads`. -/
inductive JVal where
  | null : JVal
  | bool (b : Bool) : JVal
  | num (q : ℚ) : JVal
  | str (s : String) : JVal
  | arr (elems : List JVal) : JVal
  | obj (fields : List (String × JVal)) : JVal
deriving Repr

/-- A Python dict with string keys, as an association list (keys unique,
insertion order preserved, which is what `dict.values()` iterates). -/
abbrev PyDict := List (String × JVal)

/-- `d.get(k, default)` on a Python dict. -/
def dictGet (d : PyDict) (k : String) (default : JVal) : JVal :=
  match d.lookup k with
  | some v => v
  | none => default

/-- Python truthiness of a `JVal` (`bool(v)`): `None`, `0`, `""` and
empty containers are falsy. -/
def truthy : JVal → Bool
  | .null => false
  | .bool b => b
  | .num q => decide (q ≠ 0)
  | .str s => decide (s ≠ "")
  | .arr l => !l.isEmpty
  | .obj l => !l.isEmpty

/-- Python `float(v)`.  `none` models a raised `TypeError`/`ValueError`.
Numeric-literal strings are outside the modelled input space and also
map to `none`. -/
def pyFloat : JVal → Option ℚ
  | .num q => some q
  | .bool b => some (if b then 1 else 0)
  | _ => none

/-- Python `int(v)`: truncation toward zero on numbers; `none` models a
raised error (same caveat about numeric strings as `pyFloat`). -/
def pyInt : JVal → Option ℤ
  | .num q => some (if 0 ≤ q then ⌊q⌋ else ⌈q⌉)
  | .bool b => some (if b then 1 else 0)
  | _ => none

/-- `for x in v`: the list of values Python iteration yields.  A dict
yields its keys, a string its one-character substrings; `none` models
`TypeError: not iterable`. -/
def pyIter : JVal → Option (List JVal)
  | .arr l => some l
  | .obj d => some (d.map fun kv => .str kv.1)
  | .str s => some (s.data.map fun c => .str (String.mk [c]))
  | _ => none

/-- `record.get(...)` requires the record to be a dict; anything else
raises `AttributeError` (modelled by `none`). -/
def asDict : JVal → Option PyDict
  | .obj d => some d
  | _ => none

/-- Exception-propagating `for` loop that maps each element
(`processed_data.append(f record)` with any raise aborting the whole
transformation). -/
def mapOption (f : α → Option β) : List α → Option (List β)
  | [] => some []
  | a :: l => do
      let b ← f a
      let bs ← mapOption f l
      some (b :: bs)

/-! ## Normalizer (`transform_financial_data`, data_processing_lambda.py lines 34-70) -/

/-- The five-field extraction applied to one `company_financials`
record (lines 43-50): `record.get` defaults to `None`, and `netIncome`
is renamed to `net_income`. -/
def transformFinRecord (record : PyDict) : PyDict :=
  [("symbol", dictGet record "symbol" .null),
   ("date", dictGet record "date" .null),
   ("revenue", dictGet record "revenue" .null),
   ("net_income", dictGet record "netIncome" .null),
   ("currency", dictGet record "currency" .null)]

/-- `all(transformed_record.values())` (line 51). -/
def recordComplete (t : PyDict) : Bool :=
  (t.map Prod.snd).all truthy

/-- The `company_financials` loop (lines 41-52): append the transformed
record when all five extracted values are truthy. -/
def transformCompanyFinancials (records : List PyDict) : List PyDict :=
  records.foldl
    (fun acc record =>
      let t := transformFinRecord record
      if recordComplete t then acc ++ [t] else acc)
    []

/-- One `market_data` record (lines 56-63).  Note line 62: the
numerator reads `open`/`close` with default `0`, while the divisor and
the `!= 0` guard read `open` with default `1`. -/
def transformMarketRecord (record : PyDict) : Option PyDict := do
  let o ← pyFloat (dictGet record "open" (.num 0))
  let c ← pyFloat (dictGet record "close" (.num 0))
  let v ← pyInt (dictGet record "volume" (.num 0))
  let g ← pyFloat (dictGet record "open" (.num 1))
  some [("index", dictGet record "index" .null),
        ("date", dictGet record "date" .null),
        ("open", .num o),
        ("close", .num c),
        ("volume", .num (v : ℚ)),
        ("daily_change_pct", .num (if g ≠ 0 then (c - o) / g * 100 else 0))]

/-- `transform_financial_data(raw_data, data_type)` (lines 34-70).
`none` models a raised exception (iterating a non-iterable, `.get` on a
non-dict, a failed numeric coercion). -/
def transform_financial_data (raw_data : JVal) (data_type : String) : Option JVal :=
  if data_type = "company_financials" then do
    let items ← pyIter raw_data
    let records ← mapOption asDict items
    some (.arr ((transformCompanyFinancials records).map .obj))
  else if data_type = "market_data" then do
    let items ← pyIter raw_data
    let records ← mapOption asDict items
    let out ← mapOption transformMarketRecord records
    some (.arr (out.map .obj))
  else
    -- logger.warning(...); return raw_data
    some raw_data

/-! ## Key derivation (`upload_processed_data_to_s3`, lines 72-94, and
`FinancialDataIngestor._upload_to_s3`, financial_data_ingestor.py lines 41-44) -/

/-- Python `s.split('/')` on the character list: even the empty input
yields one (empty) segment, and every `'/'` starts a new segment. -/
def splitSeg : List Char → List (List Char)
  | [] => [[]]
  | c :: cs =>
    if c = '/' then [] :: splitSeg cs
    else
      match splitSeg cs with
      | [] => [[c]]
      | p :: ps => (c :: p) :: ps

/-- `original_s3_key.split('/')` (line 79). -/
def pySplitSlash (s : String) : List String :=
  (splitSeg s.data).map String.mk

/-- `os.path.basename` on POSIX: everything after the last `'/'`,
i.e. the last segment of the split. -/
def osPathBasename (s : String) : String :=
  (pySplitSlash s).getLastD ""

/-- `upload_processed_data_to_s3`'s key derivation (lines 79-89):
`parts[-1]`, `parts[-2]`, `parts[-3]` are read as positions 0, 1, 2 of
the reversed segment list. -/
def derive_processed_key (procPrefix original_s3_key : String) : String :=
  let parts := pySplitSlash original_s3_key
  if 4 ≤ parts.length then
    -- data_type = parts[-3]; date_str = parts[-2]; filename = parts[-1]
    procPrefix ++ "/" ++ parts.reverse.getD 2 "" ++ "/" ++
      parts.reverse.getD 1 "" ++ "/" ++ parts.reverse.getD 0 ""
  else
    procPrefix ++ "/unclassified/" ++ osPathBasename original_s3_key

/-- The file name `_upload_to_s3` builds (financial_data_ingestor.py
line 43); `hms` stands for `datetime.now().strftime('%H%M%S')`. -/
def upload_file_name (data_type date_str hms : String) : String :=
  data_type ++ "_" ++ date_str ++ "_" ++ hms ++ ".json"

/-- The raw S3 key `_upload_to_s3` writes to (line 44). -/
def upload_s3_key (s3Prefix data_type date_str file_name : String) : String :=
  s3Prefix ++ "/" ++ data_type ++ "/" ++ date_str ++ "/" ++ file_name

/-! ## Puller (`FinancialDataIngestor.run_daily_ingestion`, lines 71-94)

`ingestFin`/`ingestMkt` stand for `ingest_company_financials` /
`ingest_market_data` applied to one symbol or index: each performs an
API call and a storage write and either returns the written key or
raises (`Except.error`). -/

/-- `run_daily_ingestion(symbols, market_indices)`: two sequential
loops sharing the `ingested_keys` accumulator; each loop body is a
`try/except Exception` that appends on success and skips on failure.
The call itself never raises, so the result type is a plain list. -/
def run_daily_ingestion {ε : Type} (ingestFin ingestMkt : String → Except ε String)
    (symbols market_indices : List String) : List String :=
  let keys1 := symbols.foldl
    (fun acc symbol =>
      match ingestFin symbol with
      | .ok key => acc ++ [key]
      | .error _ => acc)   -- except Exception: logger.error(...); continue
    []
  market_indices.foldl
    (fun acc market_index =>
      match ingestMkt market_index with
      | .ok key => acc ++ [key]
      | .error _ => acc)
    keys1

/-! ## Reactor (`lambda_handler`, data_processing_lambda.py lines 99-143) -/

/-- The Lambda response dictionary. -/
structure LambdaResponse where
  statusCode : Nat
  body : String
deriving DecidableEq, Repr

/-- The fixed acknowledgment dictionary of lines 140-143: statusCode
200 and body `json.dumps` of the completion message (hence the inner
quotes). -/
def successResponse : LambdaResponse :=
  ⟨200, "\x22Data processing complete.\x22"⟩

/-- Data-type inference from the raw key (lines 120-125). -/
def inferDataType (key : String) : String :=
  let key_parts := pySplitSlash key
  if 1 < key_parts.length ∧ key_parts.getD 0 "" = "financial_data" then
    key_parts.getD 1 ""
  else
    "unknown"

/-- One notification record of `event['Records']`: `none` models a
record with no `'s3'` field, `some (bucket, key)` one with
`record['s3']['bucket']['name']` and `record['s3']['object']['key']`. -/
abbrev S3Record := Option (String × String)

/-- The body of the `for record in event['Records']` loop for one
record (lines 105-138): skip records without `'s3'`, otherwise load,
infer the type, transform, and upload; any raise propagates
(`Except.error`).  `load` models `load_raw_data_from_s3` (the storage
get plus `json.loads`), `put` the `put_object` inside
`upload_processed_data_to_s3`, and `transformErr` the exception raised
when `transform_financial_data` fails on malformed input. -/
def processRecord {ε : Type} (load : String → String → Except ε JVal)
    (put : String → JVal → Except ε Unit) (transformErr : ε)
    (procPrefix : String) (record : S3Record) : Except ε Unit :=
  match record with
  | none => .ok ()   -- logger.warning(...); continue
  | some (bucket, key) => do
      let raw_data ← load bucket key
      let data_type := inferDataType key
      let processed_data ←
        match transform_financial_data raw_data data_type with
        | some v => Except.ok v
        | none => Except.error transformErr
      let new_s3_key := derive_processed_key procPrefix key
      put new_s3_key processed_data

/-- Exception-propagating `for` loop over the records: the first raise
aborts the loop. -/
def forExcept {ε : Type} (f : α → Except ε Unit) : List α → Except ε Unit
  | [] => .ok ()
  | a :: l =>
    match f a with
    | .ok _ => forExcept f l
    | .error e => .error e

/-- `lambda_handler(event, context)` (lines 99-143): process every
record; the first raise aborts the invocation, otherwise return the
fixed success acknowledgment. -/
def lambda_handler {ε : Type} (load : String → String → Except ε JVal)
    (put : String → JVal → Except ε Unit) (transformErr : ε)
    (procPrefix : String) (records : List S3Record) : Except ε LambdaResponse :=
  match forExcept (processRecord load put transformErr procPrefix) records with
  | .ok _ => .ok successResponse
  | .error e => .error e

/-! ## Credential Provider (`get_api_key_from_secret`,
utils/secrets_manager.py lines 56-70) -/

/-- A raised Python exception, as observed by the caller. -/
inductive PyError where
  | valueError (msg : String) : PyError
  | attributeError : PyError
deriving DecidableEq, Repr

/-- `get_api_key_from_secret(secret_arn, key_name)` (lines 56-70).
`gs` models `get_secret` (the secret-store collaborator) and `loads`
models the stdlib `json.loads` (`none` = `JSONDecodeError`).  A parse
failure is re-raised as `ValueError('Secret string is not valid JSON
for ...')`; a falsy extracted field raises `ValueError("Key '...' not
found in secret JSON for ...")` (the `except Exception` clause
re-raises it unchanged); `.get` on a non-dict JSON value raises
`AttributeError`, also re-raised unchanged. -/
def get_api_key_from_secret (loads : String → Option JVal)
    (gs : String → Except PyError String)
    (secret_arn : String) (key_name : String := "api_key") : Except PyError JVal :=
  match gs secret_arn with
  | .error e => .error e   -- get_secret raised before the try block; propagate
  | .ok secret_string =>
    match loads secret_string with
    | none =>
        .error (.valueError ("Secret string is not valid JSON for " ++ secret_arn))
    | some (.obj secret_dict) =>
        let api_key := dictGet secret_dict key_name .null
        if truthy api_key then
          .ok api_key
        else
          .error (.valueError ("Key \x27" ++ key_name ++ "\x27 not found in secret JSON for "
            ++ secret_arn))
    | some _ => .error .attributeError

/-! ## Helper lemmas about `splitSeg` and `pySplitSlash` -/

theorem splitSeg_ne_nil (l : List Char) : splitSeg l ≠ [] := by
  induction l with
  | nil => simp [splitSeg]
  | cons c cs ih =>
    by_cases h : c = '/'
    · simp [splitSeg, h]
    · simp only [splitSeg, if_neg h]
      cases hs : splitSeg cs with
      | nil => simp
      | cons p ps => simp

theorem splitSeg_append (xs ys : List Char) :
    splitSeg (xs ++ '/' :: ys) = splitSeg xs ++ splitSeg ys := by
  induction xs with
  | nil => simp [splitSeg]
  | cons c cs ih =>
    by_cases h : c = '/'
    · subst h
      simp [splitSeg, ih]
    · simp only [List.cons_append, splitSeg, if_neg h]
      simp only [List.append_eq]
      rw [ih]
      cases hs : splitSeg cs with
      | nil => exact absurd hs (splitSeg_ne_nil cs)
      | cons p ps => simp

theorem splitSeg_no_slash (l : List Char) (h : '/' ∉ l) : splitSeg l = [l] := by
  induction l with
  | nil => rfl
  | cons c cs ih =>
    have hc : ¬ c = '/' := fun hc => h (hc ▸ List.mem_cons_self c cs)
    have hcs : '/' ∉ cs := fun hm => h (List.mem_cons_of_mem c hm)
    simp only [splitSeg, if_neg hc, ih hcs]

theorem string_data_append (a b : String) : (a ++ b).data = a.data ++ b.data :=
  String.data_append a b

theorem pySplitSlash_ne_nil (s : String) : pySplitSlash s ≠ [] := by
  unfold pySplitSlash
  intro h
  exact splitSeg_ne_nil s.data (List.map_eq_nil_iff.mp h)

theorem pySplitSlash_append (a b : String) :
    pySplitSlash (a ++ "/" ++ b) = pySplitSlash a ++ pySplitSlash b := by
  unfold pySplitSlash
  have hdata : (a ++ "/" ++ b).data = a.data ++ '/' :: b.data := by
    rw [string_data_append, string_data_append]
    simp
  rw [hdata, splitSeg_append, List.map_append]

theorem pySplitSlash_no_slash (a : String) (h : '/' ∉ a.data) :
    pySplitSlash a = [a] := by
  unfold pySplitSlash
  rw [splitSeg_no_slash a.data h]
  rfl

/-! ## Claims C3, C4, C6 -/

/-- C3: for every `original_key` splitting on `/` into at least 4
segments and every processed prefix, the derived processed key is the
prefix followed by the last three segments, preserving that trailing
triple verbatim. -/
theorem derive_processed_key_long (procPrefix original_s3_key : String)
    (h : 4 ≤ (pySplitSlash original_s3_key).length) :
    ∃ front data_type date_str file_name,
      pySplitSlash original_s3_key = front ++ [data_type, date_str, file_name] ∧
      derive_processed_key procPrefix original_s3_key =
        procPrefix ++ "/" ++ data_type ++ "/" ++ date_str ++ "/" ++ file_name := by
  rcases hr : (pySplitSlash original_s3_key).reverse with _ | ⟨fn, _ | ⟨ds, _ | ⟨dt, rest⟩⟩⟩
  · have hl : (pySplitSlash original_s3_key).length = 0 := by
      rw [← List.length_reverse, hr]
      rfl
    omega
  · have hl : (pySplitSlash original_s3_key).length = 1 := by
      rw [← List.length_reverse, hr]
      rfl
    omega
  · have hl : (pySplitSlash original_s3_key).length = 2 := by
      rw [← List.length_reverse, hr]
      rfl
    omega
  · have hparts : pySplitSlash original_s3_key = rest.reverse ++ [dt, ds, fn] := by
      have := congrArg List.reverse hr
      simpa using this
    refine ⟨rest.reverse, dt, ds, fn, hparts, ?_⟩
    unfold derive_processed_key
    rw [if_pos h, hr]
    simp [List.getD]

/-- C4: for every `original_key` with fewer than 4 segments, the
derived key is the prefix, the `unclassified` marker segment, and the
basename of the original key. -/
theorem derive_processed_key_short (procPrefix original_s3_key : String)
    (h : (pySplitSlash original_s3_key).length < 4) :
    derive_processed_key procPrefix original_s3_key =
      procPrefix ++ "/unclassified/" ++ osPathBasename original_s3_key := by
  unfold derive_processed_key
  rw [if_neg (not_le.mpr h)]

/-- C6: identity law for unknown data types: for any data-type tag
other than `company_financials` and `market_data`, the Normalizer
returns its input unchanged (and does not raise). -/
theorem transform_unknown_type_identity (raw_data : JVal) (data_type : String)
    (h1 : data_type ≠ "company_financials") (h2 : data_type ≠ "market_data") :
    transform_financial_data raw_data data_type = some raw_data := by
  unfold transform_financial_data
  rw [if_neg h1, if_neg h2]

/-- Shared helper: once the split of a key is known to be a nonempty
front followed by exactly three segments, the derived processed key is
the processed prefix followed by those three segments. -/
theorem derive_key_of_decomp (procPrefix key : String) (front : List String)
    (a b c : String) (hf : front ≠ [])
    (h : pySplitSlash key = front ++ [a, b, c]) :
    derive_processed_key procPrefix key =
      procPrefix ++ "/" ++ a ++ "/" ++ b ++ "/" ++ c := by
  have h0 : 0 < front.length := List.length_pos.mpr hf
  have hlen : 4 ≤ (pySplitSlash key).length := by
    rw [h]
    simp only [List.length_append, List.length_cons, List.length_nil]
    omega
  have hr : (pySplitSlash key).reverse = c :: b :: a :: front.reverse := by
    rw [h]
    simp
  unfold derive_processed_key
  rw [if_pos hlen, hr]
  simp [List.getD]

/-- C5: path symmetry: applying processed-key derivation to the raw
key the Puller constructs yields the processed prefix followed by the
same `data_type/date/filename` suffix, whenever those three parts
contain no slash. -/
theorem raw_processed_path_symmetry
    (procPrefix s3Prefix data_type date_str file_name : String)
    (hdt : '/' ∉ data_type.data) (hds : '/' ∉ date_str.data)
    (hfn : '/' ∉ file_name.data) :
    derive_processed_key procPrefix (upload_s3_key s3Prefix data_type date_str file_name) =
      procPrefix ++ "/" ++ data_type ++ "/" ++ date_str ++ "/" ++ file_name := by
  have hsplit : pySplitSlash (upload_s3_key s3Prefix data_type date_str file_name) =
      pySplitSlash s3Prefix ++ [data_type, date_str, file_name] := by
    unfold upload_s3_key
    rw [pySplitSlash_append, pySplitSlash_append, pySplitSlash_append,
        pySplitSlash_no_slash data_type hdt, pySplitSlash_no_slash date_str hds,
        pySplitSlash_no_slash file_name hfn]
    simp
  exact derive_key_of_decomp procPrefix _ _ _ _ _ (pySplitSlash_ne_nil s3Prefix) hsplit

/-- Witness for C3: the spec's round-trip example key has 4 segments
and its last three are preserved verbatim behind the processed prefix. -/
theorem derive_processed_key_long_witness :
    4 ≤ (pySplitSlash "financial_data/market_data/2024-01-01/market_data_2024-01-01_103000.json").length ∧
    ∃ front data_type date_str file_name,
      pySplitSlash "financial_data/market_data/2024-01-01/market_data_2024-01-01_103000.json" =
        front ++ [data_type, date_str, file_name] ∧
      derive_processed_key "processed_data"
          "financial_data/market_data/2024-01-01/market_data_2024-01-01_103000.json" =
        "processed_data" ++ "/" ++ data_type ++ "/" ++ date_str ++ "/" ++ file_name :=
  ⟨by decide,
   derive_processed_key_long "processed_data"
     "financial_data/market_data/2024-01-01/market_data_2024-01-01_103000.json" (by decide)⟩

/-- Witness for C4: the malformed key `abc.json` derives to the
`unclassified` fallback key. -/
theorem derive_processed_key_short_witness :
    (pySplitSlash "abc.json").length < 4 ∧
    derive_processed_key "processed_data" "abc.json" =
      "processed_data/unclassified/abc.json" := by
  refine ⟨by decide, ?_⟩
  rw [derive_processed_key_short "processed_data" "abc.json" (by decide)]
  rfl

/-- Witness for C5: the Puller's key for the spec's example derives to
the processed key with the identical trailing triple. -/
theorem raw_processed_path_symmetry_witness :
    derive_processed_key "processed_data"
        (upload_s3_key "financial_data" "market_data" "2024-01-01"
          "market_data_2024-01-01_103000.json") =
      "processed_data/market_data/2024-01-01/market_data_2024-01-01_103000.json" := by
  rw [raw_processed_path_symmetry "processed_data" "financial_data" "market_data"
    "2024-01-01" "market_data_2024-01-01_103000.json" (by decide) (by decide) (by decide)]
  rfl

/-- Witness for C6: an unknown tag passes an arbitrary value through. -/
theorem transform_unknown_type_identity_witness :
    transform_financial_data (JVal.str "x") "unknown" = some (JVal.str "x") :=
  transform_unknown_type_identity (JVal.str "x") "unknown" (by decide) (by decide)

/-! ## Claims C2 and C1 -/

/-- Shared helper: the accumulator form of the `company_financials`
loop equals map-then-filter. -/
theorem companyFinancials_loop_eq (records : List PyDict) (acc : List PyDict) :
    records.foldl
      (fun acc record =>
        let t := transformFinRecord record
        if recordComplete t then acc ++ [t] else acc)
      acc =
    acc ++ (records.map transformFinRecord).filter recordComplete := by
  induction records generalizing acc with
  | nil => simp
  | cons r rs ih =>
    simp only [List.foldl_cons, List.map_cons, List.filter_cons]
    by_cases h : recordComplete (transformFinRecord r)
    · simp only [h, if_pos]
      rw [ih]
      simp
    · simp only [h]
      rw [if_neg (by simp [h]), ih]
      simp [h]

/-- C2: the Normalizer maps each `company_financials` record through
the five-field extraction, retains exactly the records whose five
extracted values are all truthy, in input order; in particular a
record whose `revenue` extracts to a falsy value (such as `0`) never
appears in the output. -/
theorem company_financials_completeness_filter (records : List PyDict) :
    transformCompanyFinancials records =
      (records.map transformFinRecord).filter recordComplete ∧
    ∀ r ∈ records, truthy (dictGet r "revenue" .null) = false →
      transformFinRecord r ∉ transformCompanyFinancials records := by
  have key : transformCompanyFinancials records =
      (records.map transformFinRecord).filter recordComplete := by
    unfold transformCompanyFinancials
    simpa using companyFinancials_loop_eq records []
  refine ⟨key, ?_⟩
  intro r _ hrev hmem
  rw [key] at hmem
  have hcomp := List.of_mem_filter hmem
  simp [recordComplete, transformFinRecord, hrev] at hcomp

/-- Witness for C2: the spec's zero-revenue example record is dropped,
while the same record with nonzero revenue is retained (renamed). -/
theorem company_financials_completeness_filter_witness :
    transformCompanyFinancials
        [[("symbol", JVal.str "AAPL"), ("date", JVal.str "2024-01-01"),
          ("revenue", JVal.num 0), ("netIncome", JVal.num 500),
          ("currency", JVal.str "USD")]] = [] ∧
    transformFinRecord
        [("symbol", JVal.str "AAPL"), ("date", JVal.str "2024-01-01"),
         ("revenue", JVal.num 0), ("netIncome", JVal.num 500),
         ("currency", JVal.str "USD")] ∉
      transformCompanyFinancials
        [[("symbol", JVal.str "AAPL"), ("date", JVal.str "2024-01-01"),
          ("revenue", JVal.num 0), ("netIncome", JVal.num 500),
          ("currency", JVal.str "USD")]] := by
  have h := company_financials_completeness_filter
    [[("symbol", JVal.str "AAPL"), ("date", JVal.str "2024-01-01"),
      ("revenue", JVal.num 0), ("netIncome", JVal.num 500),
      ("currency", JVal.str "USD")]]
  refine ⟨?_, h.2 _ (by simp) (by rfl)⟩
  rw [h.1]
  rfl

/-- Shared helper: the normalized `market_data` record, given the four
numeric coercions the code performs. -/
theorem transformMarketRecord_eq (record : PyDict) (o c g : ℚ) (v : ℤ)
    (ho : pyFloat (dictGet record "open" (.num 0)) = some o)
    (hc : pyFloat (dictGet record "close" (.num 0)) = some c)
    (hv : pyInt (dictGet record "volume" (.num 0)) = some v)
    (hg : pyFloat (dictGet record "open" (.num 1)) = some g) :
    transformMarketRecord record =
      some [("index", dictGet record "index" .null),
            ("date", dictGet record "date" .null),
            ("open", .num o),
            ("close", .num c),
            ("volume", .num (v : ℚ)),
            ("daily_change_pct", .num (if g ≠ 0 then (c - o) / g * 100 else 0))] := by
  simp [transformMarketRecord, ho, hc, hv, hg]

/-- C1 (amended): for a `market_data` record whose `open`, `close` and
`volume` reads coerce successfully, `daily_change_pct` is
`(close - open) / open * 100` when `open` is present and nonzero, `0`
when `open` is present and zero, but `close * 100` when the `open`
field is absent, because the divisor and the zero-guard read `open`
with default `1` while the numerator reads it with default `0`. -/
theorem market_daily_change_pct (record : PyDict) (o c : ℚ)
    (ho : pyFloat (dictGet record "open" (.num 0)) = some o)
    (hc : pyFloat (dictGet record "close" (.num 0)) = some c)
    (hv : (pyInt (dictGet record "volume" (.num 0))).isSome) :
    ∃ out, transformMarketRecord record = some out ∧
      out.lookup "daily_change_pct" =
        some (.num (if (record.lookup "open").isNone then c * 100
                    else if o ≠ 0 then (c - o) / o * 100 else 0)) := by
  obtain ⟨v, hv'⟩ := Option.isSome_iff_exists.mp hv
  cases hopen : record.lookup "open" with
  | none =>
    have e0 : dictGet record "open" (.num 0) = .num 0 := by
      simp [dictGet, hopen]
    have e1 : dictGet record "open" (.num 1) = .num 1 := by
      simp [dictGet, hopen]
    have ho0 : o = 0 := by
      rw [e0] at ho
      simpa [pyFloat] using ho.symm
    have hg : pyFloat (dictGet record "open" (.num 1)) = some 1 := by
      rw [e1]
      rfl
    refine ⟨_, transformMarketRecord_eq record o c 1 v ho hc hv' hg, ?_⟩
    simp [List.lookup, hopen, ho0]
  | some w =>
    have e0 : dictGet record "open" (.num 0) = w := by
      simp [dictGet, hopen]
    have e1 : dictGet record "open" (.num 1) = w := by
      simp [dictGet, hopen]
    have hg : pyFloat (dictGet record "open" (.num 1)) = some o := by
      rw [e1, ← e0]
      exact ho
    refine ⟨_, transformMarketRecord_eq record o c o v ho hc hv' hg, ?_⟩
    simp [List.lookup, hopen]

/-- Counterexample for C1 as stated: the record with no `open` field
and `close = 5` normalizes to `daily_change_pct = 500`, not `0`, even
though `open` is absent (the claim predicts `0` for a missing `open`). -/
theorem market_missing_open_counterexample :
    ([("close", JVal.num 5)] : PyDict).lookup "open" = none ∧
    ∃ out, transformMarketRecord [("close", JVal.num 5)] = some out ∧
      out.lookup "daily_change_pct" = some (.num 500) ∧ (500 : ℚ) ≠ 0 := by
  have h1 : transformMarketRecord [("close", JVal.num 5)] =
      some [("index", JVal.null), ("date", JVal.null), ("open", JVal.num 0),
            ("close", JVal.num 5), ("volume", JVal.num 0),
            ("daily_change_pct", JVal.num 500)] := by
    rw [transformMarketRecord_eq [("close", JVal.num 5)] 0 5 1 0 rfl rfl rfl rfl]
    norm_num
    exact ⟨rfl, rfl⟩
  exact ⟨rfl, _, h1, rfl, by norm_num⟩

/-- Witness for C1 (amended): for `open = 100`, `close = 110` the
normalized change is 10 percent, and the missing-`open` branch of the
amended statement is exercised at `close = 5`. -/
theorem market_daily_change_pct_witness :
    (∃ out, transformMarketRecord [("open", JVal.num 100), ("close", JVal.num 110)] = some out ∧
      out.lookup "daily_change_pct" = some (.num 10)) ∧
    ∃ out, transformMarketRecord [("close", JVal.num 5)] = some out ∧
      out.lookup "daily_change_pct" = some (.num 500) := by
  constructor
  · obtain ⟨out, h1, h2⟩ :=
      market_daily_change_pct [("open", JVal.num 100), ("close", JVal.num 110)]
        100 110 rfl rfl (by decide)
    refine ⟨out, h1, ?_⟩
    rw [h2, show (List.lookup "open"
      ([("open", JVal.num 100), ("close", JVal.num 110)] : PyDict)) =
        some (JVal.num 100) from rfl]
    norm_num
  · obtain ⟨out, h1, h2⟩ :=
      market_daily_change_pct [("close", JVal.num 5)] 0 5 rfl rfl (by decide)
    refine ⟨out, h1, ?_⟩
    rw [h2, show (List.lookup "open" ([("close", JVal.num 5)] : PyDict)) = none from rfl]
    norm_num

/-! ## Claims C7, C8, C10, C9 -/

/-- Shared helper: one ingestion loop with its accumulator collects
exactly the keys of the successful items, in order. -/
theorem ingest_loop_eq {ε : Type} (f : String → Except ε String)
    (l : List String) (acc : List String) :
    l.foldl
      (fun acc item =>
        match f item with
        | .ok key => acc ++ [key]
        | .error _ => acc)
      acc =
    acc ++ l.filterMap (fun item => (f item).toOption) := by
  induction l generalizing acc with
  | nil => simp
  | cons s ss ih =>
    simp only [List.foldl_cons, List.filterMap_cons]
    cases hfs : f s with
    | ok key =>
      rw [ih]
      simp [Except.toOption]
    | error e =>
      rw [ih]
      simp [Except.toOption]

/-- C7: Puller partial-failure tolerance: per-item raises are caught
inside the loops (the embedding's total return type), the run continues
with the remaining items, and the returned list is exactly the keys of
the items whose ingestion succeeded, symbols first, each in input
order. -/
theorem run_daily_ingestion_partial_failure {ε : Type}
    (ingestFin ingestMkt : String → Except ε String)
    (symbols market_indices : List String) :
    run_daily_ingestion ingestFin ingestMkt symbols market_indices =
      symbols.filterMap (fun symbol => (ingestFin symbol).toOption) ++
      market_indices.filterMap (fun market_index => (ingestMkt market_index).toOption) := by
  unfold run_daily_ingestion
  rw [ingest_loop_eq, ingest_loop_eq]
  simp

/-- Shared helper: the record loop succeeds exactly when every record
processes without error. -/
theorem forExcept_ok_iff {ε : Type} (f : α → Except ε Unit) (l : List α) :
    forExcept f l = .ok () ↔ ∀ a ∈ l, f a = .ok () := by
  induction l with
  | nil => simp [forExcept]
  | cons a as ih =>
    cases hfa : f a with
    | ok u =>
      cases u
      simp [forExcept, hfa, ih]
    | error e =>
      simp [forExcept, hfa]

/-- Shared helper: a successful handler invocation can only return the
fixed acknowledgment. -/
theorem lambda_handler_ok_unique {ε : Type} (load : String → String → Except ε JVal)
    (put : String → JVal → Except ε Unit) (transformErr : ε) (procPrefix : String)
    (records : List S3Record) (resp : LambdaResponse)
    (h : lambda_handler load put transformErr procPrefix records = .ok resp) :
    resp = successResponse := by
  unfold lambda_handler at h
  cases hfor : forExcept (processRecord load put transformErr procPrefix) records with
  | ok u =>
    rw [hfor] at h
    cases h
    rfl
  | error e =>
    rw [hfor] at h
    cases h

/-- Shared helper: the handler acknowledges success exactly when every
record processes without error. -/
theorem lambda_handler_ok_iff {ε : Type} (load : String → String → Except ε JVal)
    (put : String → JVal → Except ε Unit) (transformErr : ε) (procPrefix : String)
    (records : List S3Record) :
    lambda_handler load put transformErr procPrefix records = .ok successResponse ↔
      ∀ r ∈ records, processRecord load put transformErr procPrefix r = .ok () := by
  rw [← forExcept_ok_iff (processRecord load put transformErr procPrefix) records]
  unfold lambda_handler
  cases hfor : forExcept (processRecord load put transformErr procPrefix) records with
  | ok u =>
    cases u
    simp
  | error e =>
    simp

/-- C8: Reactor fail-fast: the fixed success acknowledgment is
returned exactly when every notification in the batch processes
without error; a successful invocation never returns anything but that
acknowledgment; and if any single notification raises, the whole
invocation raises. -/
theorem lambda_handler_fail_fast {ε : Type} (load : String → String → Except ε JVal)
    (put : String → JVal → Except ε Unit) (transformErr : ε) (procPrefix : String)
    (records : List S3Record) :
    (lambda_handler load put transformErr procPrefix records = .ok successResponse ↔
      ∀ r ∈ records, processRecord load put transformErr procPrefix r = .ok ()) ∧
    (∀ resp, lambda_handler load put transformErr procPrefix records = .ok resp →
      resp = successResponse) ∧
    ((∃ r ∈ records, ∃ e, processRecord load put transformErr procPrefix r = .error e) →
      ∃ e, lambda_handler load put transformErr procPrefix records = .error e) := by
  refine ⟨lambda_handler_ok_iff load put transformErr procPrefix records,
    fun resp h => lambda_handler_ok_unique load put transformErr procPrefix records resp h,
    ?_⟩
  rintro ⟨r, hr, e, he⟩
  cases hres : lambda_handler load put transformErr procPrefix records with
  | ok resp =>
    have hsucc : resp = successResponse :=
      lambda_handler_ok_unique load put transformErr procPrefix records resp hres
    rw [hsucc] at hres
    have hall := (lambda_handler_ok_iff load put transformErr procPrefix records).mp hres
    rw [hall r hr] at he
    cases he
  | error e2 => exact ⟨e2, rfl⟩

/-- Witness for C8: a one-notification batch whose load and put
succeed is acknowledged, and the same batch with a failing load makes
the whole invocation raise. -/
theorem lambda_handler_fail_fast_witness :
    lambda_handler (fun _ _ => Except.ok (JVal.arr [])) (fun _ _ => Except.ok ()) 0
        "processed_data"
        [some ("raw-bucket", "financial_data/market_data/2024-01-01/f.json")] =
      Except.ok successResponse ∧
    ∃ e, lambda_handler (fun _ _ => (Except.error 7 : Except Nat JVal))
        (fun _ _ => Except.ok ()) 0 "processed_data"
        [some ("raw-bucket", "financial_data/market_data/2024-01-01/f.json")] =
      Except.error e := by
  constructor
  · exact (lambda_handler_fail_fast (fun _ _ => Except.ok (JVal.arr []))
      (fun _ _ => Except.ok ()) 0 "processed_data"
      [some ("raw-bucket", "financial_data/market_data/2024-01-01/f.json")]).1.mpr
      (by
        intro r hr
        rw [List.mem_singleton] at hr
        subst hr
        rfl)
  · exact (lambda_handler_fail_fast (fun _ _ => (Except.error 7 : Except Nat JVal))
      (fun _ _ => Except.ok ()) 0 "processed_data"
      [some ("raw-bucket", "financial_data/market_data/2024-01-01/f.json")]).2.2
      ⟨some ("raw-bucket", "financial_data/market_data/2024-01-01/f.json"),
        List.mem_singleton.mpr rfl, 7, rfl⟩

/-- Shared helper: records without an `'s3'` field are invisible to
the loop. -/
theorem forExcept_filterMap {ε : Type} (f : S3Record → Except ε Unit)
    (hnone : f none = .ok ()) (records : List S3Record) :
    forExcept f records = forExcept f ((records.filterMap id).map some) := by
  induction records with
  | nil => rfl
  | cons r rs ih =>
    cases r with
    | none =>
      simp only [forExcept, hnone, List.filterMap_cons]
      exact ih
    | some p =>
      simp only [forExcept, List.filterMap_cons, List.map_cons]
      cases f (some p) with
      | ok u => exact ih
      | error e => rfl

/-- C10: the handler silently skips entries lacking an `'s3'` field:
processing such an entry is a no-op, the invocation behaves exactly as
if those entries were absent, and when every remaining entry processes
without error the fixed success acknowledgment is still returned. -/
theorem lambda_handler_skips_non_s3 {ε : Type} (load : String → String → Except ε JVal)
    (put : String → JVal → Except ε Unit) (transformErr : ε) (procPrefix : String)
    (records : List S3Record) :
    processRecord load put transformErr procPrefix none = .ok () ∧
    lambda_handler load put transformErr procPrefix records =
      lambda_handler load put transformErr procPrefix ((records.filterMap id).map some) ∧
    ((∀ p ∈ records.filterMap id,
        processRecord load put transformErr procPrefix (some p) = .ok ()) →
      lambda_handler load put transformErr procPrefix records = .ok successResponse) := by
  refine ⟨rfl, ?_, ?_⟩
  · unfold lambda_handler
    rw [forExcept_filterMap (processRecord load put transformErr procPrefix) rfl records]
  · intro hall
    refine (lambda_handler_ok_iff load put transformErr procPrefix records).mpr ?_
    intro r hr
    cases r with
    | none => rfl
    | some p =>
      exact hall p (List.mem_filterMap.mpr ⟨some p, hr, rfl⟩)

/-- Witness for C10: a batch holding only a record without `'s3'` data
is acknowledged as success. -/
theorem lambda_handler_skips_non_s3_witness :
    lambda_handler (fun _ _ => (Except.error 7 : Except Nat JVal))
        (fun _ _ => Except.ok ()) 0 "processed_data" [none] =
      Except.ok successResponse := by
  refine (lambda_handler_skips_non_s3 (fun _ _ => (Except.error 7 : Except Nat JVal))
    (fun _ _ => Except.ok ()) 0 "processed_data" [none]).2.2 ?_
  intro p hp
  simp at hp

/-- C9: Credential Provider contract, for a reachable secret whose
payload is `payload`: a payload that is not valid JSON raises the
format `ValueError`; a JSON-object payload with a truthy value under
the default field name `api_key` returns that value; a JSON-object
payload whose `api_key` field is absent or falsy raises the
field-missing `ValueError`; and the two errors are distinct values. -/
theorem get_api_key_contract (loads : String → Option JVal)
    (gs : String → Except PyError String) (secret_arn payload : String)
    (h : gs secret_arn = .ok payload) :
    (loads payload = none →
      get_api_key_from_secret loads gs secret_arn "api_key" =
        .error (.valueError ("Secret string is not valid JSON for " ++ secret_arn))) ∧
    (∀ d, loads payload = some (.obj d) →
      truthy (dictGet d "api_key" .null) = true →
      get_api_key_from_secret loads gs secret_arn "api_key" =
        .ok (dictGet d "api_key" .null)) ∧
    (∀ d, loads payload = some (.obj d) →
      truthy (dictGet d "api_key" .null) = false →
      get_api_key_from_secret loads gs secret_arn "api_key" =
        .error (.valueError ("Key \x27api_key\x27 not found in secret JSON for "
          ++ secret_arn))) ∧
    PyError.valueError ("Secret string is not valid JSON for " ++ secret_arn) ≠
      PyError.valueError ("Key \x27api_key\x27 not found in secret JSON for "
        ++ secret_arn) := by
  have hred : ∀ r, loads payload = r →
      get_api_key_from_secret loads gs secret_arn "api_key" =
        match r with
        | none =>
            .error (.valueError ("Secret string is not valid JSON for " ++ secret_arn))
        | some (.obj secret_dict) =>
            if truthy (dictGet secret_dict "api_key" .null) then
              .ok (dictGet secret_dict "api_key" .null)
            else
              .error (.valueError ("Key \x27api_key\x27 not found in secret JSON for "
                ++ secret_arn))
        | some _ => .error .attributeError := by
    intro r hr
    unfold get_api_key_from_secret
    rw [h]
    subst hr
    rfl
  refine ⟨?_, ?_, ?_, ?_⟩
  · intro hl
    rw [hred none hl]
  · intro d hl ht
    rw [hred (some (.obj d)) hl]
    simp [ht]
  · intro d hl ht
    rw [hred (some (.obj d)) hl]
    simp [ht]
  · intro heq
    have hmsg := PyError.valueError.inj heq
    have hlen := congrArg String.length hmsg
    rw [String.length_append, String.length_append] at hlen
    have l1 : ("Secret string is not valid JSON for " : String).length = 36 := rfl
    have l2 : ("Key \x27api_key\x27 not found in secret JSON for " : String).length = 43 := rfl
    rw [l1, l2] at hlen
    omega

/-- A stand-in for the stdlib `json.loads` on the three payloads the
spec's Credential Provider examples use (an external collaborator of
the embedded function). -/
def loadsW : String → Option JVal := fun s =>
  if s = "\x7b\x22api_key\x22:\x22X\x22\x7d" then some (.obj [("api_key", .str "X")])
  else if s = "\x7b\x7d" then some (.obj [])
  else none

/-- A secret store returning the identifier itself as the payload. -/
def gsW : String → Except PyError String := fun s => .ok s

/-- Witness for C9: the spec's three concrete examples. -/
theorem get_api_key_contract_witness :
    get_api_key_from_secret loadsW gsW "\x7b\x22api_key\x22:\x22X\x22\x7d" "api_key" =
      .ok (JVal.str "X") ∧
    get_api_key_from_secret loadsW gsW "not-json" "api_key" =
      .error (.valueError ("Secret string is not valid JSON for " ++ "not-json")) ∧
    get_api_key_from_secret loadsW gsW "\x7b\x7d" "api_key" =
      .error (.valueError ("Key \x27api_key\x27 not found in secret JSON for "
        ++ "\x7b\x7d")) := by
  refine ⟨?_, ?_, ?_⟩
  · exact (get_api_key_contract loadsW gsW "\x7b\x22api_key\x22:\x22X\x22\x7d"
      "\x7b\x22api_key\x22:\x22X\x22\x7d" rfl).2.1 [("api_key", .str "X")] rfl rfl
  · exact (get_api_key_contract loadsW gsW "not-json" "not-json" rfl).1 rfl
  · exact (get_api_key_contract loadsW gsW "\x7b\x7d" "\x7b\x7d" rfl).2.2.1 [] rfl rfl
